import Mathlib

/-!
Formal model of the UAT automation engine in `uat_automation.py`:
the result data model, the validator set, the test-runner dispatch,
the summary aggregation and the JSON report serializer.
-/

/-- Status taxonomy of `TestStatus` (source lines 54-60). -/
inductive TestStatus where
  | pending
  | running
  | passed
  | failed
  | skipped
  | error
  deriving DecidableEq

/-- The `.value` string of each `TestStatus` enum member. -/
def statusValue : TestStatus → String
  | .pending => "pending"
  | .running => "running"
  | .passed => "passed"
  | .failed => "failed"
  | .skipped => "skipped"
  | .error => "error"

/-- JSON-like Python values: the data that flows through `params`,
`details` and probe output in the source.  Python ints and floats are
collapsed into `num : Rat`. -/
inductive JValue where
  | null
  | bool (b : Bool)
  | num (q : Rat)
  | str (s : String)
  | arr (xs : List JValue)
  | obj (kvs : List (String × JValue))

/-- Structural equality on `JValue`, modelling Python `==` on values
decoded from JSON (`None`, booleans, numbers, strings, lists, dicts).
Python treats `16 == 16.0` as true; collapsing ints and floats into
`Rat` reproduces that. -/
def JValue.beq : JValue → JValue → Bool
  | .null, .null => true
  | .bool a, .bool b => a == b
  | .num a, .num b => a == b
  | .str a, .str b => a == b
  | .arr [], .arr [] => true
  | .arr (x :: xs), .arr (y :: ys) => x.beq y && (JValue.arr xs).beq (JValue.arr ys)
  | .obj [], .obj [] => true
  | .obj ((k, v) :: xs), .obj ((l, w) :: ys) =>
      k == l && v.beq w && (JValue.obj xs).beq (JValue.obj ys)
  | _, _ => false

/-- Python substring test `needle in hay` on strings. -/
def pySubstr (needle hay : String) : Bool :=
  decide (needle.toList <:+: hay.toList)

/-- Python truthiness of a JSON-like value (`bool(x)`). -/
def pyTruthy : JValue → Bool
  | .null => false
  | .bool b => b
  | .num q => q != 0
  | .str s => !s.isEmpty
  | .arr xs => !xs.isEmpty
  | .obj kvs => !kvs.isEmpty

/-- ASCII lower-casing of one character, modelling Python `str.lower`
on the ASCII range (the only range the claims exercise). -/
def pyCharLower (c : Char) : Char :=
  if 'A' ≤ c ∧ c ≤ 'Z' then Char.ofNat (c.toNat + 32) else c

/-- `str.lower` modelled over the ASCII range. -/
def pyLower (s : String) : String :=
  String.mk (s.toList.map pyCharLower)

/-- Coarse `str(x)` rendering used only to build diagnostic message
strings; no claim depends on the textual rendering of numbers or of
containers, so containers are abbreviated and rationals use the Lean
rendering. -/
def pyStr : JValue → String
  | .null => "None"
  | .bool b => if b then "True" else "False"
  | .num q => toString q
  | .str s => s
  | .arr _ => "[...]"
  | .obj _ => "\x7b...\x7d"

/-- Exceptions that can cross the validator boundary in the source:
binding a declaration's `params` to a validator signature raises
`TypeError`, and `.startswith`/`.lower` on a non-string raises
`AttributeError`.  (Exceptions raised inside a validator body that is
wrapped in `try` never surface; they are converted to Error results.) -/
inductive PyExn where
  | typeError (msg : String)
  | attributeError (msg : String)
  | keyError (msg : String)
  deriving DecidableEq

/-- Message text of an exception, `str(e)`. -/
def pyExnMsg : PyExn → String
  | .typeError m => m
  | .attributeError m => m
  | .keyError m => m

/-- Outcome of `open(path)` followed by `json.load` (external stdlib),
as observed by `validate_json_schema`: an I/O failure from `open`, a
`json.JSONDecodeError`, or a decoded value. -/
inductive JsonLoadErr where
  | ioError (msg : String)
  | decodeError (msg : String)
  deriving DecidableEq

/-- Outcome of one `subprocess.run(['ffprobe', ...])` invocation.
`completed rc out` carries the exit code and the result of
`json.loads` applied to the captured stdout (the JSON parse of the
external stdlib is abstracted into the environment: the probe reports
either a decode failure message or the decoded value). -/
inductive ProbeOutcome where
  | notFound
  | timeout
  | completed (returncode : Int) (out : Except String JValue)
  | raised (msg : String)

/-- The ambient effects the validators perform, abstracted as an
environment: filesystem existence/stat, JSON file loading, streamed
checksum computation (`hashlib.new` + chunked read + `hexdigest`,
which can fail with an unsupported-algorithm or I/O message), and the
external ffprobe invocation. -/
structure Env where
  pathExists : String → Bool
  stat : String → Except String Nat
  readJson : String → Except JsonLoadErr JValue
  checksum : String → String → Except String String
  probe : String → ProbeOutcome

/-- A completed test outcome (dataclass `TestResult`, source lines
66-79).  The `timestamp` field (construction-time metadata defaulted
by `__post_init__`) is not modelled: every claim puts timestamps
aside.  `duration` is the wall-clock seconds the validator reports. -/
structure TestResult where
  name : String
  status : TestStatus
  duration : Rat
  message : String
  details : List (String × JValue)

/-- One test declaration inside a suite's `tests` list: a dict with a
`name`, a `type` discriminator and a `params` dict.  A missing key is
`none`; `params` defaults to the empty dict. -/
structure TestDecl where
  name? : Option String
  type? : Option String
  params : List (String × JValue)

/-- Dataclass `TestSuite` (source lines 81-90); `created` is
construction-time metadata no claim touches. -/
structure TestSuite where
  name : String
  tests : List TestDecl
  description : String := ""

/-- The summary dict produced by `TestRunner.get_summary` (source
lines 454-469). -/
structure Summary where
  total : Nat
  passed : Nat
  failed : Nat
  errors : Nat
  skipped : Nat
  duration : Rat
  success_rate : Rat
  deriving DecidableEq

/-- Split a character list at every `/`, keeping empty components
(the path parsing `pathlib` performs before dropping them). -/
def splitSlash : List Char → List (List Char)
  | [] => [[]]
  | c :: rest =>
      match splitSlash rest with
      | [] => [[]]
      | g :: gs => if c = '/' then [] :: g :: gs else (c :: g) :: gs

/-- `PurePosixPath(p).name`: the final path component ('' and '.'
components are dropped by pathlib's parsing; '..' is kept). -/
def pathName (p : String) : String :=
  String.mk ((((splitSlash p.toList).filter
    (fun g => !(g.isEmpty || g == ['.']))).getLast?).getD [])

/-- `PurePosixPath(p).suffix`: the substring of the name from its last
dot, provided that dot is neither the first nor the last character of
the name; otherwise the empty string. -/
def pathSuffix (p : String) : String :=
  let name := (pathName p).toList
  match name.reverse.findIdx? (· == '.') with
  | none => ""
  | some j =>
      let i := name.length - 1 - j
      if 0 < i ∧ i < name.length - 1 then String.mk (name.drop i) else ""

/-- Normalization of `expected_ext` in `validate_file_format` (source
line 164): lower-case, with a leading dot added when absent. -/
def normalizeExt (e : String) : String :=
  if e.toList.head? == some '.' then pyLower e else "." ++ pyLower e

/-- An Error result carrying only an exception message, as built by
the `except` branches of the validators (details defaults to the
empty dict). -/
def mkErrorResult (name : String) (dur : Rat) (msg : String) : TestResult :=
  { name := name, status := .error, duration := dur, message := msg, details := [] }

/-- Python `key in data` as used by `validate_json_schema`: dict
membership over a dict's (string) keys, element membership in a list,
substring membership in a string; raises `TypeError` for unhashable
keys in a dict or for a non-container. -/
def pyContains (data key : JValue) : Except PyExn Bool :=
  match data with
  | .obj kvs =>
      match key with
      | .str s => .ok (kvs.any (fun kv => kv.1 == s))
      | .arr _ => .error (.typeError "unhashable type: list")
      | .obj _ => .error (.typeError "unhashable type: dict")
      | _ => .ok false
  | .arr xs => .ok (xs.any (fun x => x.beq key))
  | .str s =>
      match key with
      | .str t => .ok (pySubstr t s)
      | _ => .error (.typeError "in <string> requires string as left operand")
  | _ => .error (.typeError "argument is not iterable")

/-- Python iteration over a JSON-like value: a list yields its
elements, a string its characters, a dict its keys; anything else
raises `TypeError`. -/
def iterElems : JValue → Except PyExn (List JValue)
  | .arr xs => .ok xs
  | .str s => .ok (s.toList.map (fun c => .str (String.mk [c])))
  | .obj kvs => .ok (kvs.map (fun kv => .str kv.1))
  | _ => .error (.typeError "object is not iterable")

/-- The list comprehension `[key for key in required_keys if key not
in data]` of `validate_json_schema` (source line 208), evaluated left
to right; the first membership test that raises aborts it. -/
def missingOf (data : JValue) : List JValue → Except PyExn (List JValue)
  | [] => .ok []
  | k :: rest => do
      let c ← pyContains data k
      let ms ← missingOf data rest
      .ok (if c then ms else k :: ms)

/-- The generator `next((s for s in streams if s['codec_type'] ==
'video'), None)` over the already-materialized element list: scan for
the first dict whose `codec_type` equals `"video"`, raising exactly
when Python's subscript would (so malformed elements after the first
match are never touched).  Returns the matching dict's entries. -/
def findVideoStream : List JValue → Except PyExn (Option (List (String × JValue)))
  | [] => .ok none
  | s :: rest =>
      match s with
      | .obj kvs =>
          match kvs.lookup "codec_type" with
          | some ct => if ct.beq (.str "video") then .ok (some kvs) else findVideoStream rest
          | none => .error (.keyError "codec_type")
      | _ => .error (.typeError "indices must be integers")

/-- `data.get('streams', [])` followed by the video-stream scan above:
the shared stream-inspection step of `validate_video_codec` (source
lines 281-282) and `validate_resolution` (source lines 342-343). -/
def videoStreamOf (data : JValue) : Except PyExn (Option (List (String × JValue))) :=
  match data with
  | .obj kvs =>
      match iterElems ((kvs.lookup "streams").getD (.arr [])) with
      | .error e => .error e
      | .ok elems => findVideoStream elems
  | _ => .error (.attributeError "object has no attribute get")

/-- Numeric view of a value for Python's `>=`/`<=` against an int:
numbers compare as numbers, booleans as 0/1, anything else raises
`TypeError` (returned as `none`). -/
def pyNum? : JValue → Option Rat
  | .num q => some q
  | .bool b => some (if b then 1 else 0)
  | _ => none

/-- `Validators.validate_file_exists` (source lines 144-157).  The
environment argument is the ambient filesystem. -/
def validate_file_exists (env : Env) (dur : Rat) (path : String) : TestResult :=
  let ex := env.pathExists path
  { name := "File Exists Check"
    status := if ex then .passed else .failed
    duration := dur
    message := "File " ++ (if ex then "found" else "not found") ++ ": " ++ path
    details := [("path", .str path), ("exists", .bool ex)] }

/-- `Validators.validate_file_format` (source lines 159-174).  The
body performs no filesystem access: `env` is passed (every validator
runs under the same ambient authority) but never consulted. -/
def validate_file_format (env : Env) (dur : Rat) (path expected_ext : String) : TestResult :=
  let actual_ext := pyLower (pathSuffix path)
  let expected := normalizeExt expected_ext
  let same := actual_ext == expected
  { name := "File Format Check"
    status := if same then .passed else .failed
    duration := dur
    message := "Expected " ++ expected ++ ", got " ++ actual_ext
    details := [("expected", .str expected), ("actual", .str actual_ext)] }

/-- Message of `validate_file_size` (source line 189); thousands
separators of `{size:,}` are not reproduced (no claim reads this
text). -/
def fileSizeMsg (size : Nat) (minB maxB : JValue) : String :=
  "Size: " ++ toString size ++ " bytes (min: " ++ pyStr minB ++ ", max: "
    ++ (if pyTruthy maxB then pyStr maxB else "unlimited") ++ ")"

/-- `Validators.validate_file_size` (source lines 176-198).  The whole
body sits inside `try`, so every dynamic failure (non-string path,
failing stat, non-numeric bound) becomes an Error result.  The
comparison `size >= min_bytes and (max_bytes is None or size <=
max_bytes)` short-circuits exactly as in Python. -/
def validate_file_size (env : Env) (dur : Rat) (path minB maxB : JValue) : TestResult :=
  match path with
  | .str p =>
      match env.stat p with
      | .error msg => mkErrorResult "File Size Check" dur msg
      | .ok size =>
          match pyNum? minB with
          | none => mkErrorResult "File Size Check" dur
              "not supported between instances of int and the given min_bytes"
          | some qmin =>
              if (size : Rat) < qmin then
                { name := "File Size Check", status := .failed, duration := dur
                  message := fileSizeMsg size minB maxB
                  details := [("size", .num size), ("min", minB), ("max", maxB)] }
              else
                match maxB with
                | .null =>
                    { name := "File Size Check", status := .passed, duration := dur
                      message := fileSizeMsg size minB maxB
                      details := [("size", .num size), ("min", minB), ("max", maxB)] }
                | _ =>
                    match pyNum? maxB with
                    | none => mkErrorResult "File Size Check" dur
                        "not supported between instances of int and the given max_bytes"
                    | some qmax =>
                        { name := "File Size Check"
                          status := if (size : Rat) ≤ qmax then .passed else .failed
                          duration := dur
                          message := fileSizeMsg size minB maxB
                          details := [("size", .num size), ("min", minB), ("max", maxB)] }
  | _ => mkErrorResult "File Size Check" dur
      "argument should be a str or an os.PathLike object"

/-- `Validators.validate_json_schema` (source lines 200-232).  The
body sits inside `try` with a dedicated `json.JSONDecodeError` branch
producing `Invalid JSON: ...` and a catch-all branch for every other
exception; both yield Error results.  The message for missing keys
renders the Python list repr, abbreviated here (only `details` is
claim-relevant). -/
def validate_json_schema (env : Env) (dur : Rat) (path required_keys : JValue) : TestResult :=
  match path with
  | .str p =>
      match env.readJson p with
      | .error (.decodeError m) =>
          mkErrorResult "JSON Schema Check" dur ("Invalid JSON: " ++ m)
      | .error (.ioError m) => mkErrorResult "JSON Schema Check" dur m
      | .ok data =>
          match iterElems required_keys with
          | .error e => mkErrorResult "JSON Schema Check" dur (pyExnMsg e)
          | .ok keys =>
              match missingOf data keys with
              | .error e => mkErrorResult "JSON Schema Check" dur (pyExnMsg e)
              | .ok missing =>
                  { name := "JSON Schema Check"
                    status := if missing.isEmpty then .passed else .failed
                    duration := dur
                    message := if missing.isEmpty then "All required keys present"
                               else "Missing keys: [...]"
                    details := [("required", required_keys), ("missing", .arr missing)] }
  | _ => mkErrorResult "JSON Schema Check" dur
      "expected str, bytes or os.PathLike object"

/-- `Validators.validate_checksum` (source lines 234-261).  The body
sits inside `try`: `hashlib.new` on a non-string algorithm raises and
is caught, as is `open` on a non-string path; the environment's
`checksum` field abstracts hasher creation plus the chunked file read
plus `hexdigest`.  The hash comparison is Python `==`, which never
raises. -/
def validate_checksum (env : Env) (dur : Rat) (path expected_hash algorithm : JValue) :
    TestResult :=
  match algorithm with
  | .str alg =>
      match path with
      | .str p =>
          match env.checksum alg p with
          | .error m => mkErrorResult "Checksum Validation" dur m
          | .ok actual =>
              let same := (JValue.str actual).beq expected_hash
              { name := "Checksum Validation"
                status := if same then .passed else .failed
                duration := dur
                message := "Hash " ++ (if same then "matches" else "mismatch")
                details := [("expected", expected_hash), ("actual", .str actual),
                            ("algorithm", algorithm)] }
      | _ => mkErrorResult "Checksum Validation" dur
          "expected str, bytes or os.PathLike object"
  | _ => mkErrorResult "Checksum Validation" dur "new() argument name must be str"

/-- `Validators.validate_video_codec` (source lines 263-330).  Inside
`try`: a missing ffprobe binary raises `FileNotFoundError` and yields
Skipped; `subprocess.TimeoutExpired` yields Error; a nonzero exit code
yields Error before any parsing; then stdout is parsed, the first
video stream is looked up, and the codec is compared case-insensitively
when `expected_codec` is truthy.  A non-string codec or expected codec
raises `AttributeError` at `.lower()`, caught into Error. -/
def validate_video_codec (env : Env) (dur : Rat) (path expected_codec : JValue) : TestResult :=
  match path with
  | .str p =>
      match env.probe p with
      | .notFound =>
          { name := "Video Codec Check", status := .skipped, duration := dur
            message := "ffprobe not found - skipping codec check", details := [] }
      | .timeout => mkErrorResult "Video Codec Check" dur "ffprobe timed out"
      | .raised m => mkErrorResult "Video Codec Check" dur m
      | .completed rc out =>
          if rc ≠ 0 then
            mkErrorResult "Video Codec Check" dur "ffprobe failed - is FFmpeg installed?"
          else
            match out with
            | .error m => mkErrorResult "Video Codec Check" dur m
            | .ok data =>
                match videoStreamOf data with
                | .error e => mkErrorResult "Video Codec Check" dur (pyExnMsg e)
                | .ok none =>
                    { name := "Video Codec Check", status := .failed, duration := dur
                      message := "No video stream found", details := [] }
                | .ok (some vs) =>
                    let codec := (vs.lookup "codec_name").getD (.str "unknown")
                    if pyTruthy expected_codec then
                      match codec, expected_codec with
                      | .str c, .str e =>
                          let same := pyLower c == pyLower e
                          { name := "Video Codec Check"
                            status := if same then .passed else .failed
                            duration := dur
                            message := "Codec: " ++ c ++ " (expected: " ++ e ++ ")"
                            details := [("codec", codec), ("expected", expected_codec)] }
                      | _, _ => mkErrorResult "Video Codec Check" dur
                          "object has no attribute lower"
                    else
                      { name := "Video Codec Check", status := .passed, duration := dur
                        message := "Codec detected: " ++ pyStr codec
                        details := [("codec", codec)] }
  | _ => mkErrorResult "Video Codec Check" dur "expected str instance for argv"

/-- `Validators.validate_resolution` (source lines 332-379).  Inside
`try`: a missing binary yields Skipped; there is no dedicated timeout
branch, but `subprocess.TimeoutExpired` is an `Exception` and falls
into the catch-all, yielding Error.  Unlike `validate_video_codec`,
the exit code is never inspected: the body goes straight to
`json.loads(result.stdout)`, so a failing probe surfaces as Error only
when its stdout fails to parse.  The width/height comparisons are
Python `==` against the (possibly `None`) expectations and never
raise. -/
def validate_resolution (env : Env) (dur : Rat) (path expected_width expected_height : JValue) :
    TestResult :=
  match path with
  | .str p =>
      match env.probe p with
      | .notFound =>
          { name := "Resolution Check", status := .skipped, duration := dur
            message := "ffprobe not found - skipping resolution check", details := [] }
      | .timeout => mkErrorResult "Resolution Check" dur "Command timed out after 30 seconds"
      | .raised m => mkErrorResult "Resolution Check" dur m
      | .completed _rc out =>
          match out with
          | .error m => mkErrorResult "Resolution Check" dur m
          | .ok data =>
              match videoStreamOf data with
              | .error e => mkErrorResult "Resolution Check" dur (pyExnMsg e)
              | .ok none =>
                  { name := "Resolution Check", status := .failed, duration := dur
                    message := "No video stream found", details := [] }
              | .ok (some vs) =>
                  let width := (vs.lookup "width").getD .null
                  let height := (vs.lookup "height").getD .null
                  let width_ok := expected_width.beq .null || width.beq expected_width
                  let height_ok := expected_height.beq .null || height.beq expected_height
                  { name := "Resolution Check"
                    status := if width_ok && height_ok then .passed else .failed
                    duration := dur
                    message := "Resolution: " ++ pyStr width ++ "x" ++ pyStr height
                    details := [("width", width), ("height", height),
                                ("expected_width", expected_width),
                                ("expected_height", expected_height)] }
  | _ => mkErrorResult "Resolution Check" dur "expected str instance for argv"

/-- Python keyword binding `validator(**params)`: binding succeeds iff
every required parameter name is present and every supplied key names
a parameter; otherwise the call raises `TypeError` before the
validator body runs. -/
def bindOk (required optional : List String) (params : List (String × JValue)) : Bool :=
  required.all (fun k => (params.lookup k).isSome) &&
  params.all (fun kv => required.contains kv.1 || optional.contains kv.1)

/-- Binding for `validate_file_exists(path)`.  The body has no `try`,
so `Path(path)` on a non-string raises out of the validator; that
dynamic check therefore belongs to the raising layer. -/
def bindFileExists (params : List (String × JValue)) : Except PyExn String :=
  if bindOk ["path"] [] params then
    match params.lookup "path" with
    | some (.str p) => .ok p
    | _ => .error (.typeError "argument should be a str or an os.PathLike object")
  else .error (.typeError "validate_file_exists() missing or unexpected arguments")

/-- Binding for `validate_file_format(path, expected_ext)`: no `try`
in the body, so a non-string `path` raises `TypeError` at `Path(path)`
and a non-string `expected_ext` raises `AttributeError` at
`.startswith` (in that evaluation order). -/
def bindFileFormat (params : List (String × JValue)) : Except PyExn (String × String) :=
  if bindOk ["path", "expected_ext"] [] params then
    match params.lookup "path" with
    | some (.str p) =>
        match params.lookup "expected_ext" with
        | some (.str e) => .ok (p, e)
        | _ => .error (.attributeError "object has no attribute startswith")
    | _ => .error (.typeError "argument should be a str or an os.PathLike object")
  else .error (.typeError "validate_file_format() missing or unexpected arguments")

/-- Binding for `validate_file_size(path, min_bytes=0, max_bytes=None)`;
the body is inside `try`, so only keyword binding can raise. -/
def bindFileSize (params : List (String × JValue)) :
    Except PyExn (JValue × JValue × JValue) :=
  if bindOk ["path"] ["min_bytes", "max_bytes"] params then
    .ok ((params.lookup "path").getD .null,
         (params.lookup "min_bytes").getD (.num 0),
         (params.lookup "max_bytes").getD .null)
  else .error (.typeError "validate_file_size() missing or unexpected arguments")

/-- Binding for `validate_json_schema(path, required_keys)`. -/
def bindJsonSchema (params : List (String × JValue)) : Except PyExn (JValue × JValue) :=
  if bindOk ["path", "required_keys"] [] params then
    .ok ((params.lookup "path").getD .null, (params.lookup "required_keys").getD .null)
  else .error (.typeError "validate_json_schema() missing or unexpected arguments")

/-- Binding for `validate_checksum(path, expected_hash, algorithm="md5")`. -/
def bindChecksum (params : List (String × JValue)) :
    Except PyExn (JValue × JValue × JValue) :=
  if bindOk ["path", "expected_hash"] ["algorithm"] params then
    .ok ((params.lookup "path").getD .null,
         (params.lookup "expected_hash").getD .null,
         (params.lookup "algorithm").getD (.str "md5"))
  else .error (.typeError "validate_checksum() missing or unexpected arguments")

/-- Binding for `validate_video_codec(path, expected_codec=None)`. -/
def bindVideoCodec (params : List (String × JValue)) : Except PyExn (JValue × JValue) :=
  if bindOk ["path"] ["expected_codec"] params then
    .ok ((params.lookup "path").getD .null, (params.lookup "expected_codec").getD .null)
  else .error (.typeError "validate_video_codec() missing or unexpected arguments")

/-- Binding for `validate_resolution(path, expected_width=None,
expected_height=None)`. -/
def bindResolution (params : List (String × JValue)) :
    Except PyExn (JValue × JValue × JValue) :=
  if bindOk ["path"] ["expected_width", "expected_height"] params then
    .ok ((params.lookup "path").getD .null,
         (params.lookup "expected_width").getD .null,
         (params.lookup "expected_height").getD .null)
  else .error (.typeError "validate_resolution() missing or unexpected arguments")

/-- The discriminator strings registered in `validator_map` (source
lines 399-407). -/
def validatorNames : List String :=
  ["file_exists", "file_format", "file_size", "json_schema",
   "checksum", "video_codec", "resolution"]

/-- `TestRunner.run_test` (source lines 394-418): look the declared
`type` up in the registry; synthesize an Error result (given name,
zero duration, message naming the type) on a lookup miss; otherwise
call `validator(**params)`.  `run_test` itself has no `try`, so a
binding failure or an exception out of an un-`try`ed validator body
propagates to the caller: the return type is `Except PyExn`. -/
def run_test (env : Env) (dur : Rat) (cfg : TestDecl) : Except PyExn TestResult :=
  match cfg.type? with
  | none =>
      .ok { name := cfg.name?.getD "Unknown", status := .error, duration := 0
            message := "Unknown test type: None", details := [] }
  | some t =>
      if t = "file_exists" then
        match bindFileExists cfg.params with
        | .error e => .error e
        | .ok p => .ok (validate_file_exists env dur p)
      else if t = "file_format" then
        match bindFileFormat cfg.params with
        | .error e => .error e
        | .ok (p, ext) => .ok (validate_file_format env dur p ext)
      else if t = "file_size" then
        match bindFileSize cfg.params with
        | .error e => .error e
        | .ok (p, mn, mx) => .ok (validate_file_size env dur p mn mx)
      else if t = "json_schema" then
        match bindJsonSchema cfg.params with
        | .error e => .error e
        | .ok (p, rk) => .ok (validate_json_schema env dur p rk)
      else if t = "checksum" then
        match bindChecksum cfg.params with
        | .error e => .error e
        | .ok (p, h, alg) => .ok (validate_checksum env dur p h alg)
      else if t = "video_codec" then
        match bindVideoCodec cfg.params with
        | .error e => .error e
        | .ok (p, ec) => .ok (validate_video_codec env dur p ec)
      else if t = "resolution" then
        match bindResolution cfg.params with
        | .error e => .error e
        | .ok (p, ew, eh) => .ok (validate_resolution env dur p ew eh)
      else
        .ok { name := cfg.name?.getD "Unknown", status := .error, duration := 0
              message := "Unknown test type: " ++ t, details := [] }

/-- A declaration whose dispatch through `run_test` cannot raise: its
`params` bind to the selected validator's signature (and, for the two
validators without a `try` around their bodies, the bound arguments
have the types the body requires).  Declarations with an unknown or
missing `type` are trivially well-formed: the lookup miss is handled. -/
def wellFormedDecl (cfg : TestDecl) : Bool :=
  match cfg.type? with
  | none => true
  | some t =>
      if t = "file_exists" then (bindFileExists cfg.params).isOk
      else if t = "file_format" then (bindFileFormat cfg.params).isOk
      else if t = "file_size" then (bindFileSize cfg.params).isOk
      else if t = "json_schema" then (bindJsonSchema cfg.params).isOk
      else if t = "checksum" then (bindChecksum cfg.params).isOk
      else if t = "video_codec" then (bindVideoCodec cfg.params).isOk
      else if t = "resolution" then (bindResolution cfg.params).isOk
      else true

/-- The loop body of `TestRunner.run_suite` (source lines 429-449):
process declarations in order, starting at zero-based position `i`;
each returned result's `name` is overwritten with the declaration's
name, defaulting to `Test <position>` with one-based numbering.
`durs i` supplies the wall-clock duration the `i`-th validator call
measures for itself.  An exception from `run_test` aborts the loop. -/
def run_suite_go (env : Env) (durs : Nat → Rat) :
    List TestDecl → Nat → Except PyExn (List TestResult)
  | [], _ => .ok []
  | cfg :: rest, i =>
      match run_test env (durs i) cfg with
      | .error e => .error e
      | .ok r =>
          match run_suite_go env durs rest (i + 1) with
          | .error e => .error e
          | .ok rs =>
              .ok ({ r with name := cfg.name?.getD ("Test " ++ toString (i + 1)) } :: rs)

/-- `TestRunner.run_suite` (source lines 420-452): run every
declaration of the suite in order and collect the renamed results. -/
def run_suite (env : Env) (durs : Nat → Rat) (suite : TestSuite) :
    Except PyExn (List TestResult) :=
  run_suite_go env durs suite.tests 0

/-- `TestRunner.get_summary` (source lines 454-469), over the results
held by the runner and its recorded start/end wall-clock times.  The
counts are the four status tallies; `success_rate` is
`passed/total*100` guarded by the emptiness check of `self.results`. -/
def get_summary (results : List TestResult) (startT endT : Rat) : Summary :=
  let passed := results.countP (fun r => r.status == .passed)
  let failed := results.countP (fun r => r.status == .failed)
  let errors := results.countP (fun r => r.status == .error)
  let skipped := results.countP (fun r => r.status == .skipped)
  { total := results.length
    passed := passed
    failed := failed
    errors := errors
    skipped := skipped
    duration := endT - startT
    success_rate := if results.isEmpty then 0 else (passed : Rat) / (results.length : Rat) * 100 }

/-- The four terminal statuses; `run_suite` never emits the transient
`pending`/`running`. -/
def isTerminal : TestStatus → Bool
  | .passed => true
  | .failed => true
  | .skipped => true
  | .error => true
  | _ => false

/-- The summary sub-dict of the JSON report: exactly the keys
`get_summary` produces, in source order. -/
def summaryToJson (s : Summary) : JValue :=
  .obj [("total", .num s.total), ("passed", .num s.passed), ("failed", .num s.failed),
        ("errors", .num s.errors), ("skipped", .num s.skipped),
        ("duration", .num s.duration), ("success_rate", .num s.success_rate)]

/-- One entry of the report's `results` list (source lines 507-514):
name, the status string tag, duration, message and details.  The
per-result `timestamp` field is construction-time metadata excluded by
the claims and not modelled. -/
def resultToJson (r : TestResult) : JValue :=
  .obj [("name", .str r.name), ("status", .str (statusValue r.status)),
        ("duration", .num r.duration), ("message", .str r.message),
        ("details", .obj r.details)]

/-- `ReportGenerator.to_json` (source lines 500-526) up to the
external `json.dumps`: the report object `{generated, summary,
results}` handed to the serializer.  `json.dumps`/`json.loads` of the
standard library are modelled as the identity bridge on JSON trees, so
re-parsing the produced text is reading this tree back. -/
def to_json (generated : String) (results : List TestResult) (summary : Summary) : JValue :=
  .obj [("generated", .str generated), ("summary", summaryToJson summary),
        ("results", .arr (results.map resultToJson))]

/-- Key lookup in a decoded JSON object. -/
def jLookup (v : JValue) (k : String) : Option JValue :=
  match v with
  | .obj kvs => kvs.lookup k
  | _ => none

/-- Read a decoded JSON number back as the rational it encodes. -/
def jNum? : JValue → Option Rat
  | .num q => some q
  | _ => none

/-- Read a decoded JSON number back as a natural count. -/
def jNat? : JValue → Option Nat
  | .num q => if q.den = 1 ∧ 0 ≤ q.num then some q.num.toNat else none
  | _ => none

/-- Read a decoded JSON string back. -/
def jStr? : JValue → Option String
  | .str s => some s
  | _ => none

/-- Read a decoded JSON object back as its entry list. -/
def jObj? : JValue → Option (List (String × JValue))
  | .obj kvs => some kvs
  | _ => none

/-- Inverse of `statusValue`: recover a status from its string tag. -/
def statusOfValue (s : String) : Option TestStatus :=
  if s = "pending" then some .pending
  else if s = "running" then some .running
  else if s = "passed" then some .passed
  else if s = "failed" then some .failed
  else if s = "skipped" then some .skipped
  else if s = "error" then some .error
  else none

/-- Re-parse the `summary` sub-object of a report. -/
def parseSummary (v : JValue) : Option Summary := do
  let total ← jLookup v "total" >>= jNat?
  let passed ← jLookup v "passed" >>= jNat?
  let failed ← jLookup v "failed" >>= jNat?
  let errors ← jLookup v "errors" >>= jNat?
  let skipped ← jLookup v "skipped" >>= jNat?
  let duration ← jLookup v "duration" >>= jNum?
  let rate ← jLookup v "success_rate" >>= jNum?
  some { total := total, passed := passed, failed := failed, errors := errors,
         skipped := skipped, duration := duration, success_rate := rate }

/-- Re-parse one entry of the report's `results` list back into the
fields the claims compare: name, status tag, duration, message,
details. -/
def parseResult (v : JValue) : Option TestResult := do
  let name ← jLookup v "name" >>= jStr?
  let status ← jLookup v "status" >>= jStr? >>= statusOfValue
  let duration ← jLookup v "duration" >>= jNum?
  let message ← jLookup v "message" >>= jStr?
  let details ← jLookup v "details" >>= jObj?
  some { name := name, status := status, duration := duration,
         message := message, details := details }

/-- Re-parse a list of report result entries. -/
def parseResults : List JValue → Option (List TestResult)
  | [] => some []
  | v :: rest => do
      let r ← parseResult v
      let rs ← parseResults rest
      some (r :: rs)

/-- Re-parse a full report: its summary and its results. -/
def parseReport (v : JValue) : Option (Summary × List TestResult) := do
  let s ← jLookup v "summary" >>= parseSummary
  let rv ← jLookup v "results"
  match rv with
  | .arr xs => do
      let rs ← parseResults xs
      some (s, rs)
  | _ => none

/-- An optional numeric bound as the corresponding Python argument
(`None` when absent). -/
def jOfOptNum : Option Rat → JValue
  | none => .null
  | some q => .num q

/-- A small concrete environment for witnesses: no file exists, every
stat reports five bytes, the one JSON document on disk is
`{"name": "demo"}`, checksums hash to `"abc"`, and the probe binary is
absent. -/
def env0 : Env :=
  { pathExists := fun _ => false
    stat := fun _ => .ok 5
    readJson := fun _ => .ok (.obj [("name", .str "demo")])
    checksum := fun _ _ => .ok "abc"
    probe := fun _ => .notFound }

/-- Environment whose stat fails, as for a nonexistent path. -/
def envStatErr : Env := { env0 with stat := fun _ => .error "No such file or directory" }

/-- Environment whose stat reports four bytes. -/
def envStat4 : Env := { env0 with stat := fun _ => .ok 4 }

/-- Environment whose JSON document fails to decode. -/
def envJsonBad : Env :=
  { env0 with readJson := fun _ => .error (.decodeError "Expecting value: line 1 column 1") }

/-- Environment whose probe completes with exit code 1 while still
printing the valid JSON document `{}` on stdout — the shape an
ffprobe failure can take.  Used to separate the two probe-backed
validators. -/
def envProbeFailEmptyJson : Env :=
  { env0 with probe := fun _ => .completed 1 (.ok (.obj [])) }

/-- Environment whose probe times out. -/
def envProbeTimeout : Env := { env0 with probe := fun _ => .timeout }

/-- Environment whose probe succeeds (exit code 0) but reports a
document with an empty `streams` list. -/
def envProbeNoStreams : Env :=
  { env0 with probe := fun _ => .completed 0 (.ok (.obj [("streams", .arr [])])) }

/-- Environment whose probe fails with exit code 1 and unparseable
(empty) stdout: `json.loads` reports a decode failure. -/
def envProbeFailBadStdout : Env :=
  { env0 with probe := fun _ => .completed 1 (.error "Expecting value: line 1 column 1") }


/-- A well-formed declaration: a `file_exists` check with its one
required parameter supplied as a string. -/
def declExistsOk : TestDecl :=
  { name? := some "Exists", type? := some "file_exists", params := [("path", .str "/tmp/a.txt")] }

/-- A declaration whose `params` dict is empty although the selected
validator requires `path`: binding raises `TypeError`. -/
def declMissingPath : TestDecl :=
  { name? := some "Check", type? := some "file_exists", params := [] }

/-- A `file_format` declaration with empty `params`: binding raises. -/
def declFormatMissingParams : TestDecl :=
  { name? := some "Fmt", type? := some "file_format", params := [] }


/-- A declaration with an unregistered `type` and no name: dispatch
synthesizes an Error result and the runner names it positionally. -/
def declUnknownType : TestDecl :=
  { name? := none, type? := some "mystery", params := [] }

/-- The result list `run_suite` produces from the one-declaration
suite `[declExistsOk]` under `env0` with zero durations. -/
def resW : List TestResult :=
  [{ name := "Exists", status := .failed, duration := 0,
     message := "File not found: /tmp/a.txt",
     details := [("path", .str "/tmp/a.txt"), ("exists", .bool false)] }]


/-- C9: `validate_file_format` passes exactly when the lower-cased
path suffix equals the normalized expected extension (lower-cased,
leading dot enforced); lower-casing both operands makes the comparison
case-insensitive in both arguments. -/
theorem file_format_passed_iff (env : Env) (dur : Rat) (path expected_ext : String) :
    (validate_file_format env dur path expected_ext).status =
      if pyLower (pathSuffix path) = normalizeExt expected_ext then
        TestStatus.passed else TestStatus.failed := by
  unfold validate_file_format
  by_cases h : pyLower (pathSuffix path) = normalizeExt expected_ext <;> simp [h]

/-- C10: `validate_file_format` never consults the filesystem — its
result is the same under any two environments, its status is always
Passed or Failed (never Error or Skipped), and a path that does not
exist but whose suffix matches the expected extension still yields
Passed. -/
theorem file_format_no_filesystem (env env2 : Env) (dur : Rat) (path expected_ext : String) :
    validate_file_format env dur path expected_ext
        = validate_file_format env2 dur path expected_ext
    ∧ ((validate_file_format env dur path expected_ext).status = .passed
        ∨ (validate_file_format env dur path expected_ext).status = .failed)
    ∧ (env.pathExists path = false →
        pyLower (pathSuffix path) = normalizeExt expected_ext →
        (validate_file_format env dur path expected_ext).status = .passed) := by
  refine ⟨rfl, ?_, ?_⟩
  · unfold validate_file_format
    by_cases h : pyLower (pathSuffix path) == normalizeExt expected_ext <;> simp [h]
  · intro _ h
    unfold validate_file_format
    simp [h]

/-- Witness for `file_format_no_filesystem`: under `env0` nothing
exists on disk, yet `/missing/render.MP4` with expected extension
`mp4` passes the format check. -/
theorem file_format_no_filesystem_witness :
    env0.pathExists "/missing/render.MP4" = false
    ∧ (validate_file_format env0 0 "/missing/render.MP4" "mp4").status = .passed :=
  ⟨rfl, (file_format_no_filesystem env0 env0 0 "/missing/render.MP4" "mp4").2.2 rfl (by decide)⟩

/-- C4: when the stat succeeds, `validate_file_size` passes exactly
when the size lies in the boundary-inclusive range `[min_bytes,
max_bytes]` (unbounded above when `max_bytes` is absent) and otherwise
fails — in particular `size = min_bytes` passes and `size = min_bytes
- 1` fails; when the stat raises, the result status is Error. -/
theorem file_size_boundary (env : Env) (dur : Rat) (p : String) (qmin : Rat) (maxv : Option Rat) :
    (∀ size : Nat, env.stat p = .ok size →
        (((validate_file_size env dur (.str p) (.num qmin) (jOfOptNum maxv)).status = .passed
            ↔ qmin ≤ (size : Rat) ∧ ∀ m ∈ maxv, (size : Rat) ≤ m)
         ∧ ((validate_file_size env dur (.str p) (.num qmin) (jOfOptNum maxv)).status = .passed
            ∨ (validate_file_size env dur (.str p) (.num qmin) (jOfOptNum maxv)).status = .failed)))
    ∧ ∀ msg, env.stat p = .error msg →
        (validate_file_size env dur (.str p) (.num qmin) (jOfOptNum maxv)).status = .error := by
  constructor
  · intro size h
    cases maxv with
    | none =>
        simp only [validate_file_size, jOfOptNum, h, pyNum?]
        by_cases hle : qmin ≤ (size : Rat)
        · rw [if_neg (not_lt.mpr hle)]
          exact ⟨⟨fun _ => ⟨hle, fun m hm => by cases hm⟩, fun _ => rfl⟩, Or.inl rfl⟩
        · rw [if_pos (not_le.mp hle)]
          exact ⟨⟨fun hcon => TestStatus.noConfusion hcon,
                  fun hc => absurd hc.1 hle⟩, Or.inr rfl⟩
    | some m =>
        simp only [validate_file_size, jOfOptNum, h, pyNum?]
        by_cases hle : qmin ≤ (size : Rat)
        · rw [if_neg (not_lt.mpr hle)]
          by_cases hm : (size : Rat) ≤ m
          · rw [if_pos hm]
            exact ⟨⟨fun _ => ⟨hle, fun x hx => by cases hx; exact hm⟩, fun _ => rfl⟩,
                   Or.inl rfl⟩
          · rw [if_neg hm]
            exact ⟨⟨fun hcon => TestStatus.noConfusion hcon,
                    fun hc => absurd (hc.2 m rfl) hm⟩, Or.inr rfl⟩
        · rw [if_pos (not_le.mp hle)]
          exact ⟨⟨fun hcon => TestStatus.noConfusion hcon,
                  fun hc => absurd hc.1 hle⟩, Or.inr rfl⟩
  · intro msg h
    simp only [validate_file_size, jOfOptNum, h]
    rfl

/-- Witness for `file_size_boundary`: a five-byte file against
`min_bytes = 5` passes (boundary inclusive), a four-byte file against
`min_bytes = 5` fails (`min_bytes - 1`), a failing stat yields
Error. -/
theorem file_size_boundary_witness :
    (validate_file_size env0 0 (.str "/asset.bin") (.num 5) (jOfOptNum none)).status = .passed
    ∧ (validate_file_size envStat4 0 (.str "/asset.bin") (.num 5) (jOfOptNum none)).status
        = .failed
    ∧ (validate_file_size envStatErr 0 (.str "/asset.bin") (.num 5) (jOfOptNum none)).status
        = .error :=
  ⟨(((file_size_boundary env0 0 "/asset.bin" 5 none).1 5 rfl).1).mpr
      ⟨by decide, fun m hm => by cases hm⟩,
   by
      rcases ((file_size_boundary envStat4 0 "/asset.bin" 5 none).1 4 rfl).2 with h | h
      · exact absurd ((((file_size_boundary envStat4 0 "/asset.bin" 5 none).1 4 rfl).1).mp h).1
          (by decide)
      · exact h,
   (file_size_boundary envStatErr 0 "/asset.bin" 5 none).2 "No such file or directory" rfl⟩

/-- The list comprehension of `validate_json_schema`, computed over a
decoded top-level object and string keys: the missing keys in
`required_keys` order. -/
theorem missingOf_obj_strs (kvs : List (String × JValue)) (required : List String) :
    missingOf (.obj kvs) (required.map .str)
      = .ok ((required.filter (fun k => !(kvs.any (fun kv => kv.1 == k)))).map .str) := by
  induction required with
  | nil => rfl
  | cons k ks ih =>
      simp only [List.map_cons, missingOf, pyContains, ih, List.filter_cons, Bind.bind,
        Except.bind]
      by_cases hk : kvs.any (fun kv => kv.1 == k) <;> simp [hk]

/-- No key of `required` is missing from `kvs` exactly when the
missing-keys filter is empty. -/
theorem filter_not_any_nil_iff (kvs : List (String × JValue)) (required : List String) :
    (required.filter (fun k => !(kvs.any (fun kv => kv.1 == k)))) = []
      ↔ ∀ k ∈ required, kvs.any (fun kv => kv.1 == k) = true := by
  rw [List.filter_eq_nil_iff]
  constructor
  · intro h k hk
    cases hb : kvs.any (fun kv => kv.1 == k) with
    | true => rfl
    | false => exact absurd (by simp [hb]) (h k hk)
  · intro h k hk
    simp [h k hk]

/-- C5: over a file that decodes to a top-level JSON object,
`validate_json_schema` passes exactly when every required key is
present (and otherwise fails), and a Failed result's details carry the
missing keys, in `required_keys` order, under `"missing"`; a file that
is not valid JSON yields Error, not Failed. -/
theorem json_schema_required_keys (env : Env) (dur : Rat) (p : String) (required : List String) :
    (∀ kvs, env.readJson p = .ok (.obj kvs) →
        (((validate_json_schema env dur (.str p) (.arr (required.map .str))).status = .passed
            ↔ ∀ k ∈ required, kvs.any (fun kv => kv.1 == k) = true)
          ∧ ((validate_json_schema env dur (.str p) (.arr (required.map .str))).status = .passed
              ∨ (validate_json_schema env dur (.str p)
                  (.arr (required.map .str))).status = .failed)
          ∧ ((validate_json_schema env dur (.str p) (.arr (required.map .str))).status = .failed →
              List.lookup "missing"
                  (validate_json_schema env dur (.str p) (.arr (required.map .str))).details
                = some (.arr ((required.filter
                    (fun k => !(kvs.any (fun kv => kv.1 == k)))).map .str)))))
    ∧ ∀ m, env.readJson p = .error (.decodeError m) →
        (validate_json_schema env dur (.str p) (.arr (required.map .str))).status = .error := by
  constructor
  · intro kvs h
    simp only [validate_json_schema, h, iterElems, missingOf_obj_strs]
    by_cases hF : (required.filter (fun k => !(kvs.any (fun kv => kv.1 == k)))) = []
    · rw [hF]
      exact ⟨⟨fun _ => (filter_not_any_nil_iff kvs required).mp hF, fun _ => rfl⟩,
             Or.inl rfl, fun hst => TestStatus.noConfusion hst⟩
    · have hne : ((required.filter
          (fun k => !(kvs.any (fun kv => kv.1 == k)))).map JValue.str).isEmpty = false := by
        cases hc : required.filter (fun k => !(kvs.any (fun kv => kv.1 == k))) with
        | nil => exact absurd hc hF
        | cons a l => rfl
      rw [hne]
      exact ⟨⟨fun hcon => TestStatus.noConfusion hcon,
              fun hall => absurd ((filter_not_any_nil_iff kvs required).mpr hall) hF⟩,
             Or.inr rfl, fun _ => rfl⟩
  · intro m h
    simp only [validate_json_schema, h]
    rfl

/-- Witness for `json_schema_required_keys`: against the document
`\x7b"name": "demo"\x7d`, requiring `["version", "name"]` fails with
`details.missing == ["version"]`, and a non-JSON document yields
Error. -/
theorem json_schema_required_keys_witness :
    (validate_json_schema env0 0 (.str "/cfg.json")
        (.arr [.str "version", .str "name"])).status = .failed
    ∧ List.lookup "missing"
        (validate_json_schema env0 0 (.str "/cfg.json")
          (.arr [.str "version", .str "name"])).details = some (.arr [.str "version"])
    ∧ (validate_json_schema envJsonBad 0 (.str "/cfg.json")
        (.arr [.str "version"])).status = .error := by
  obtain ⟨hiff, hor, hmiss⟩ :=
    (json_schema_required_keys env0 0 "/cfg.json" ["version", "name"]).1
      [("name", JValue.str "demo")] rfl
  have hfailed : (validate_json_schema env0 0 (.str "/cfg.json")
      (.arr [.str "version", .str "name"])).status = .failed := by
    rcases hor with hp | hf
    · exact absurd (hiff.mp hp "version" (by simp)) (by decide)
    · exact hf
  exact ⟨hfailed, hmiss hfailed,
    (json_schema_required_keys envJsonBad 0 "/cfg.json" ["version"]).2
      "Expecting value: line 1 column 1" rfl⟩

/-- C7 counterexample: the claim says a failing probe yields Error in
both probe-backed validators, but `validate_resolution` never inspects
the exit code.  With a probe that fails (exit code 1) while printing
the parseable document `\x7b\x7d`, `validate_resolution` returns Failed,
not Error, while `validate_video_codec` returns Error on the same
outcome. -/
theorem resolution_returncode_counterexample :
    envProbeFailEmptyJson.probe "clip.mp4" = .completed 1 (.ok (.obj []))
    ∧ (validate_resolution envProbeFailEmptyJson 0 (.str "clip.mp4") .null .null).status
        = .failed
    ∧ (validate_resolution envProbeFailEmptyJson 0 (.str "clip.mp4") .null .null).status
        ≠ .error
    ∧ (validate_video_codec envProbeFailEmptyJson 0 (.str "clip.mp4") .null).status
        = .error :=
  ⟨rfl, rfl, by decide, rfl⟩

/-- C7 (amended): both probe-backed validators return Skipped when the
probe binary is absent and Error on timeout or on an exception from the
probe call; probe success (exit 0) with no video stream yields Failed
in both.  A failing probe yields Error in `validate_video_codec`
(which checks the exit code), but in `validate_resolution` only when
its stdout fails to parse (the exit code itself is ignored). -/
theorem probe_outcome_statuses (env : Env) (dur : Rat) (p : String) (ec ew eh : JValue) :
    (env.probe p = .notFound →
        (validate_video_codec env dur (.str p) ec).status = .skipped
        ∧ (validate_resolution env dur (.str p) ew eh).status = .skipped)
    ∧ (env.probe p = .timeout →
        (validate_video_codec env dur (.str p) ec).status = .error
        ∧ (validate_resolution env dur (.str p) ew eh).status = .error)
    ∧ (∀ rc out, env.probe p = .completed rc out → rc ≠ 0 →
        (validate_video_codec env dur (.str p) ec).status = .error)
    ∧ (∀ rc m, env.probe p = .completed rc (.error m) →
        (validate_resolution env dur (.str p) ew eh).status = .error)
    ∧ (∀ data, env.probe p = .completed 0 (.ok data) → videoStreamOf data = .ok none →
        (validate_video_codec env dur (.str p) ec).status = .failed
        ∧ (validate_resolution env dur (.str p) ew eh).status = .failed)
    ∧ (∀ m, env.probe p = .raised m →
        (validate_video_codec env dur (.str p) ec).status = .error
        ∧ (validate_resolution env dur (.str p) ew eh).status = .error) := by
  refine ⟨?_, ?_, ?_, ?_, ?_, ?_⟩
  · intro h
    constructor <;> simp only [validate_video_codec, validate_resolution, h] <;> rfl
  · intro h
    constructor <;> simp only [validate_video_codec, validate_resolution, h] <;> rfl
  · intro rc out h h0
    simp only [validate_video_codec, h]
    rw [if_pos h0]
    rfl
  · intro rc m h
    simp only [validate_resolution, h]
    rfl
  · intro data h hvs
    constructor
    · simp only [validate_video_codec, h]
      rw [if_neg (by simp)]
      simp only [hvs]
    · simp only [validate_resolution, h, hvs]
  · intro m h
    constructor <;> simp only [validate_video_codec, validate_resolution, h] <;> rfl

/-- Witness for `probe_outcome_statuses`, exercising every hypothesis:
absent binary, timeout, failing probe with unparseable stdout, and
successful probe with an empty stream list. -/
theorem probe_outcome_statuses_witness :
    ((validate_video_codec env0 0 (.str "c.mp4") .null).status = .skipped
      ∧ (validate_resolution env0 0 (.str "c.mp4") .null .null).status = .skipped)
    ∧ ((validate_video_codec envProbeTimeout 0 (.str "c.mp4") .null).status = .error
      ∧ (validate_resolution envProbeTimeout 0 (.str "c.mp4") .null .null).status = .error)
    ∧ (validate_video_codec envProbeFailBadStdout 0 (.str "c.mp4") .null).status = .error
    ∧ (validate_resolution envProbeFailBadStdout 0 (.str "c.mp4") .null .null).status = .error
    ∧ ((validate_video_codec envProbeNoStreams 0 (.str "c.mp4") .null).status = .failed
      ∧ (validate_resolution envProbeNoStreams 0 (.str "c.mp4") .null .null).status
          = .failed) :=
  ⟨(probe_outcome_statuses env0 0 "c.mp4" .null .null .null).1 rfl,
   (probe_outcome_statuses envProbeTimeout 0 "c.mp4" .null .null .null).2.1 rfl,
   (probe_outcome_statuses envProbeFailBadStdout 0 "c.mp4" .null .null .null).2.2.1 1
      (.error "Expecting value: line 1 column 1") rfl (by decide),
   (probe_outcome_statuses envProbeFailBadStdout 0 "c.mp4" .null .null .null).2.2.2.1 1
      "Expecting value: line 1 column 1" rfl,
   (probe_outcome_statuses envProbeNoStreams 0 "c.mp4" .null .null .null).2.2.2.2.1
      (.obj [("streams", .arr [])]) rfl rfl⟩

/-- C6: a declaration whose `type` has no registry entry makes the
Runner synthesize a Result with status Error, the declaration's given
name (defaulting to `Test <position>`), zero duration and a message
containing the unrecognized type string; the suite then continues with
the remaining declarations exactly as if the unknown declaration had
not aborted anything. -/
theorem unknown_type_error (env : Env) (durs : Nat → Rat) (i : Nat) (nm : Option String)
    (t : String) (params : List (String × JValue)) (post : List TestDecl)
    (h : t ∉ validatorNames) :
    run_suite_go env durs ({ name? := nm, type? := some t, params := params } :: post) i
      = (run_suite_go env durs post (i + 1)).map
          (fun rs =>
            { name := nm.getD ("Test " ++ toString (i + 1)), status := .error,
              duration := 0, message := "Unknown test type: " ++ t,
              details := [] } :: rs)
    ∧ pySubstr t ("Unknown test type: " ++ t) = true := by
  constructor
  · simp only [validatorNames, List.mem_cons, List.not_mem_nil, or_false, not_or] at h
    obtain ⟨h1, h2, h3, h4, h5, h6, h7⟩ := h
    simp only [run_suite_go, run_test]
    rw [if_neg h1, if_neg h2, if_neg h3, if_neg h4, if_neg h5, if_neg h6, if_neg h7]
    cases hrec : run_suite_go env durs post (i + 1) <;> simp [hrec, Except.map]
  · rw [pySubstr, decide_eq_true_eq]
    have h2 : ("Unknown test type: " ++ t).toList = "Unknown test type: ".toList ++ t.toList :=
      rfl
    rw [h2]
    exact (List.suffix_append _ _).isInfix

/-- Witness for `unknown_type_error`: a one-test suite with type
`nonexistent` runs to completion with a single Error result whose
message contains `nonexistent`. -/
theorem unknown_type_error_witness :
    run_suite_go env0 (fun _ => 0)
        [{ name? := some "Bad Probe", type? := some "nonexistent", params := [] }] 0
      = .ok [{ name := "Bad Probe", status := .error, duration := 0,
               message := "Unknown test type: nonexistent", details := [] }]
    ∧ pySubstr "nonexistent" ("Unknown test type: " ++ "nonexistent") = true :=
  ⟨((unknown_type_error env0 (fun _ => 0) 0 (some "Bad Probe") "nonexistent" [] []
      (by decide)).1).trans rfl,
   (unknown_type_error env0 (fun _ => 0) 0 (some "Bad Probe") "nonexistent" [] []
      (by decide)).2⟩

/-- The status string tag written into a report decodes back to the
status it came from. -/
theorem statusOfValue_statusValue (s : TestStatus) : statusOfValue (statusValue s) = some s := by
  cases s <;> rfl

/-- A count serialized as a JSON number decodes back to itself. -/
theorem jNat?_natCast (n : Nat) : jNat? (.num (n : Rat)) = some n := by
  simp [jNat?, Rat.den_natCast, Rat.num_natCast]

/-- One report entry decodes back to the result it serializes. -/
theorem parseResult_resultToJson (r : TestResult) : parseResult (resultToJson r) = some r := by
  obtain ⟨n, st, d, m, dt⟩ := r
  cases st <;> rfl

/-- The summary sub-object decodes back to the summary it serializes. -/
theorem parseSummary_summaryToJson (s : Summary) : parseSummary (summaryToJson s) = some s := by
  obtain ⟨t, p, f, e, sk, d, sr⟩ := s
  simp only [parseSummary, summaryToJson, jLookup]
  simp [jNat?_natCast, jNum?, List.lookup]

/-- The results list decodes back element by element, in order. -/
theorem parseResults_map (rs : List TestResult) :
    parseResults (rs.map resultToJson) = some rs := by
  induction rs with
  | nil => rfl
  | cons r rest ih => simp [parseResults, parseResult_resultToJson, ih]

/-- C8: JSON report round-trip — serializing any (Results, Summary)
pair into the report object and re-parsing it reproduces the identical
summary and, for every result in order, the identical name, status
tag, duration, message and details (timestamps aside; `json.dumps` /
`json.loads` of the standard library are the identity bridge between
this tree and the produced text). -/
theorem json_report_roundtrip (generated : String) (results : List TestResult) (summary : Summary) :
    parseReport (to_json generated results summary) = some (summary, results) := by
  simp only [parseReport, to_json, jLookup]
  simp [parseSummary_summaryToJson, parseResults_map, List.lookup]

/-- Dispatch through `run_test` returns a Result (no exception)
whenever the declaration is well-formed; shared engine lemma. -/
theorem run_test_isOk_of_wf (env : Env) (dur : Rat) (cfg : TestDecl)
    (h : wellFormedDecl cfg = true) : (run_test env dur cfg).isOk = true := by
  cases hc : cfg.type? with
  | none => simp only [run_test, hc]; rfl
  | some t =>
      simp only [wellFormedDecl, hc] at h
      simp only [run_test, hc]
      by_cases h1 : t = "file_exists"
      · rw [if_pos h1] at h ⊢
        cases hb : bindFileExists cfg.params with
        | error e => rw [hb] at h; exact Bool.noConfusion h
        | ok v => rfl
      · rw [if_neg h1] at h ⊢
        by_cases h2 : t = "file_format"
        · rw [if_pos h2] at h ⊢
          cases hb : bindFileFormat cfg.params with
          | error e => rw [hb] at h; exact Bool.noConfusion h
          | ok v => obtain ⟨p, e⟩ := v; rfl
        · rw [if_neg h2] at h ⊢
          by_cases h3 : t = "file_size"
          · rw [if_pos h3] at h ⊢
            cases hb : bindFileSize cfg.params with
            | error e => rw [hb] at h; exact Bool.noConfusion h
            | ok v => obtain ⟨p, mn, mx⟩ := v; rfl
          · rw [if_neg h3] at h ⊢
            by_cases h4 : t = "json_schema"
            · rw [if_pos h4] at h ⊢
              cases hb : bindJsonSchema cfg.params with
              | error e => rw [hb] at h; exact Bool.noConfusion h
              | ok v => obtain ⟨p, rk⟩ := v; rfl
            · rw [if_neg h4] at h ⊢
              by_cases h5 : t = "checksum"
              · rw [if_pos h5] at h ⊢
                cases hb : bindChecksum cfg.params with
                | error e => rw [hb] at h; exact Bool.noConfusion h
                | ok v => obtain ⟨p, eh, alg⟩ := v; rfl
              · rw [if_neg h5] at h ⊢
                by_cases h6 : t = "video_codec"
                · rw [if_pos h6] at h ⊢
                  cases hb : bindVideoCodec cfg.params with
                  | error e => rw [hb] at h; exact Bool.noConfusion h
                  | ok v => obtain ⟨p, ec⟩ := v; rfl
                · rw [if_neg h6] at h ⊢
                  by_cases h7 : t = "resolution"
                  · rw [if_pos h7] at h ⊢
                    cases hb : bindResolution cfg.params with
                    | error e => rw [hb] at h; exact Bool.noConfusion h
                    | ok v => obtain ⟨p, ew, eh⟩ := v; rfl
                  · rw [if_neg h7] at h ⊢
                    rfl

/-- C1 (amended): `run_test` returns exactly one Result — no
exception reaches the Runner — for every declaration whose `params`
bind to the selected validator's signature with arguments of the types
the validator's un-`try`ed code requires (unknown types included); the
accompanying counterexample shows totality fails for declarations
outside this class, whose binding `TypeError`/`AttributeError`
propagates into the Runner. -/
theorem run_test_total_on_wellformed (env : Env) (dur : Rat) (cfg : TestDecl)
    (h : wellFormedDecl cfg = true) : (run_test env dur cfg).isOk = true :=
  run_test_isOk_of_wf env dur cfg h

/-- Witness for `run_test_total_on_wellformed`: a well-formed
`file_exists` declaration dispatches to a Result. -/
theorem run_test_total_on_wellformed_witness :
    wellFormedDecl declExistsOk = true
    ∧ (run_test env0 0 declExistsOk).isOk = true :=
  ⟨rfl, run_test_total_on_wellformed env0 0 declExistsOk rfl⟩

/-- C1 counterexample: a `file_exists` declaration with an empty
`params` dict makes `validator(**params)` raise `TypeError`, which
`run_test` does not catch — the claimed totality of `run_test` fails,
the exception crosses into the Runner. -/
theorem run_test_raises_counterexample :
    run_test env0 0 declMissingPath
      = .error (.typeError "validate_file_exists() missing or unexpected arguments")
    ∧ (run_test env0 0 declMissingPath).isOk = false :=
  ⟨rfl, rfl⟩

/-- Shape of the runner loop from any start position: on well-formed
declarations it returns one result per declaration, in order, each
renamed to the declaration's name (positional default). -/
theorem run_suite_go_shape (env : Env) (durs : Nat → Rat) :
    ∀ (tests : List TestDecl) (k : Nat), (∀ d ∈ tests, wellFormedDecl d = true) →
      ∃ rs, run_suite_go env durs tests k = .ok rs
        ∧ rs.length = tests.length
        ∧ ∀ i d, tests[i]? = some d →
            ∃ r, run_test env (durs (k + i)) d = .ok r
              ∧ rs[i]? = some { r with name := d.name?.getD ("Test " ++ toString (k + i + 1)) } := by
  intro tests
  induction tests with
  | nil =>
      intro k _
      exact ⟨[], rfl, rfl, fun i d hd => by simp at hd⟩
  | cons c rest ih =>
      intro k h
      have hcwf := h c (List.mem_cons_self c rest)
      have hok := run_test_isOk_of_wf env (durs k) c hcwf
      obtain ⟨r, hr⟩ : ∃ r, run_test env (durs k) c = .ok r := by
        cases hcall : run_test env (durs k) c with
        | error e => rw [hcall] at hok; exact Bool.noConfusion hok
        | ok r => exact ⟨r, rfl⟩
      obtain ⟨rs, hrs, hlen, hcorr⟩ := ih (k + 1) (fun d hd => h d (List.mem_cons_of_mem c hd))
      refine ⟨{ r with name := c.name?.getD ("Test " ++ toString (k + 1)) } :: rs, ?_, ?_, ?_⟩
      · simp only [run_suite_go, hr, hrs]
      · simp [hlen]
      · intro i d hd
        cases i with
        | zero =>
            simp only [List.getElem?_cons_zero, Option.some.injEq] at hd
            subst hd
            exact ⟨r, hr, by simp⟩
        | succ n =>
            simp only [List.getElem?_cons_succ] at hd
            obtain ⟨r2, h1, h2⟩ := hcorr n d hd
            have hidx : k + 1 + n = k + (n + 1) := by omega
            rw [hidx] at h1 h2
            exact ⟨r2, h1, by simpa using h2⟩

/-- C2 (amended): for a suite all of whose declarations are
well-formed (their params bind; `run_test` returns a Result rather
than raising), `run_suite` returns exactly N Results in declaration
order, and `result[i].name` is `tests[i]`'s declared name (default
`Test i+1`), overwriting whatever name the validator returned; the
accompanying counterexample shows the unrestricted claim fails — a
binding failure aborts `run_suite` with an exception instead of N
Results. -/
theorem run_suite_order_and_names (env : Env) (durs : Nat → Rat) (suite : TestSuite)
    (h : ∀ d ∈ suite.tests, wellFormedDecl d = true) :
    ∃ rs, run_suite env durs suite = .ok rs
      ∧ rs.length = suite.tests.length
      ∧ ∀ i d, suite.tests[i]? = some d →
          ∃ r, run_test env (durs i) d = .ok r
            ∧ rs[i]? = some { r with name := d.name?.getD ("Test " ++ toString (i + 1)) } := by
  obtain ⟨rs, h1, h2, h3⟩ := run_suite_go_shape env durs suite.tests 0 h
  exact ⟨rs, h1, h2, fun i d hd => by simpa using h3 i d hd⟩

/-- Witness for `run_suite_order_and_names`: a two-declaration suite
(one well-formed `file_exists` check, one unknown type) yields exactly
two ordered, renamed results. -/
theorem run_suite_order_and_names_witness :
    ∃ rs, run_suite env0 (fun _ => 0)
        { name := "w", tests := [declExistsOk, declUnknownType] } = .ok rs
      ∧ rs.length = ([declExistsOk, declUnknownType] : List TestDecl).length
      ∧ ∀ i d, ([declExistsOk, declUnknownType] : List TestDecl)[i]? = some d →
          ∃ r, run_test env0 ((fun _ => (0 : Rat)) i) d = .ok r
            ∧ rs[i]? = some { r with name := d.name?.getD ("Test " ++ toString (i + 1)) } :=
  run_suite_order_and_names env0 (fun _ => 0)
    { name := "w", tests := [declExistsOk, declUnknownType] } (by decide)

/-- C2 counterexample: a suite containing a `file_format`
declaration with empty `params` makes `run_suite` raise (propagated
`TypeError`) — it returns no Result sequence at all, refuting the
claim for arbitrary suites. -/
theorem run_suite_raises_counterexample :
    run_suite env0 (fun _ => 0) { name := "s", tests := [declFormatMissingParams] }
      = .error (.typeError "validate_file_format() missing or unexpected arguments")
    ∧ ∀ rs : List TestResult,
        run_suite env0 (fun _ => 0) { name := "s", tests := [declFormatMissingParams] }
          ≠ .ok rs := by
  refine ⟨rfl, fun rs hcon => ?_⟩
  rw [show run_suite env0 (fun _ => 0) { name := "s", tests := [declFormatMissingParams] }
      = .error (.typeError "validate_file_format() missing or unexpected arguments") from rfl]
    at hcon
  exact Except.noConfusion hcon

/-- Every `validate_file_exists` outcome is terminal. -/
theorem validate_file_exists_terminal (env : Env) (dur : Rat) (p : String) :
    isTerminal (validate_file_exists env dur p).status = true := by
  unfold validate_file_exists
  by_cases h : env.pathExists p <;> simp [h, isTerminal]

/-- Every `validate_file_format` outcome is terminal. -/
theorem validate_file_format_terminal (env : Env) (dur : Rat) (p e : String) :
    isTerminal (validate_file_format env dur p e).status = true := by
  unfold validate_file_format
  by_cases h : pyLower (pathSuffix p) == normalizeExt e <;> simp [h, isTerminal]

/-- Every `validate_file_size` outcome is terminal. -/
theorem validate_file_size_terminal (env : Env) (dur : Rat) (a b c : JValue) :
    isTerminal (validate_file_size env dur a b c).status = true := by
  unfold validate_file_size mkErrorResult
  repeat' split
  all_goals dsimp only
  repeat' split
  all_goals rfl

/-- Every `validate_json_schema` outcome is terminal. -/
theorem validate_json_schema_terminal (env : Env) (dur : Rat) (a b : JValue) :
    isTerminal (validate_json_schema env dur a b).status = true := by
  unfold validate_json_schema mkErrorResult
  repeat' split
  all_goals dsimp only
  repeat' split
  all_goals rfl

/-- Every `validate_checksum` outcome is terminal. -/
theorem validate_checksum_terminal (env : Env) (dur : Rat) (a b c : JValue) :
    isTerminal (validate_checksum env dur a b c).status = true := by
  unfold validate_checksum mkErrorResult
  repeat' split
  all_goals dsimp only
  repeat' split
  all_goals rfl

/-- Every `validate_video_codec` outcome is terminal. -/
theorem validate_video_codec_terminal (env : Env) (dur : Rat) (a b : JValue) :
    isTerminal (validate_video_codec env dur a b).status = true := by
  unfold validate_video_codec mkErrorResult
  repeat' split
  all_goals dsimp only
  repeat' split
  all_goals rfl

/-- Every `validate_resolution` outcome is terminal. -/
theorem validate_resolution_terminal (env : Env) (dur : Rat) (a b c : JValue) :
    isTerminal (validate_resolution env dur a b c).status = true := by
  unfold validate_resolution mkErrorResult
  repeat' split
  all_goals dsimp only
  repeat' split
  all_goals rfl

/-- Every Result `run_test` returns carries one of the four terminal
statuses (Passed, Failed, Skipped, Error). -/
theorem run_test_terminal (env : Env) (dur : Rat) (cfg : TestDecl) (r : TestResult)
    (h : run_test env dur cfg = .ok r) : isTerminal r.status = true := by
  cases hc : cfg.type? with
  | none =>
      simp only [run_test, hc] at h
      injection h with h2
      subst h2
      rfl
  | some t =>
      simp only [run_test, hc] at h
      by_cases h1 : t = "file_exists"
      · rw [if_pos h1] at h
        cases hb : bindFileExists cfg.params with
        | error e => rw [hb] at h; exact Except.noConfusion h
        | ok v =>
            rw [hb] at h; injection h with h2; subst h2
            exact validate_file_exists_terminal env dur v
      · rw [if_neg h1] at h
        by_cases h2 : t = "file_format"
        · rw [if_pos h2] at h
          cases hb : bindFileFormat cfg.params with
          | error e => rw [hb] at h; exact Except.noConfusion h
          | ok v =>
              obtain ⟨p, e⟩ := v
              rw [hb] at h; injection h with h3; subst h3
              exact validate_file_format_terminal env dur p e
        · rw [if_neg h2] at h
          by_cases h3 : t = "file_size"
          · rw [if_pos h3] at h
            cases hb : bindFileSize cfg.params with
            | error e => rw [hb] at h; exact Except.noConfusion h
            | ok v =>
                obtain ⟨p, mn, mx⟩ := v
                rw [hb] at h; injection h with h4; subst h4
                exact validate_file_size_terminal env dur p mn mx
          · rw [if_neg h3] at h
            by_cases h4 : t = "json_schema"
            · rw [if_pos h4] at h
              cases hb : bindJsonSchema cfg.params with
              | error e => rw [hb] at h; exact Except.noConfusion h
              | ok v =>
                  obtain ⟨p, rk⟩ := v
                  rw [hb] at h; injection h with h5; subst h5
                  exact validate_json_schema_terminal env dur p rk
            · rw [if_neg h4] at h
              by_cases h5 : t = "checksum"
              · rw [if_pos h5] at h
                cases hb : bindChecksum cfg.params with
                | error e => rw [hb] at h; exact Except.noConfusion h
                | ok v =>
                    obtain ⟨p, eh, alg⟩ := v
                    rw [hb] at h; injection h with h6; subst h6
                    exact validate_checksum_terminal env dur p eh alg
              · rw [if_neg h5] at h
                by_cases h6 : t = "video_codec"
                · rw [if_pos h6] at h
                  cases hb : bindVideoCodec cfg.params with
                  | error e => rw [hb] at h; exact Except.noConfusion h
                  | ok v =>
                      obtain ⟨p, ec⟩ := v
                      rw [hb] at h; injection h with h7; subst h7
                      exact validate_video_codec_terminal env dur p ec
                · rw [if_neg h6] at h
                  by_cases h7 : t = "resolution"
                  · rw [if_pos h7] at h
                    cases hb : bindResolution cfg.params with
                    | error e => rw [hb] at h; exact Except.noConfusion h
                    | ok v =>
                        obtain ⟨p, ew, eh⟩ := v
                        rw [hb] at h; injection h with h8; subst h8
                        exact validate_resolution_terminal env dur p ew eh
                  · rw [if_neg h7] at h
                    injection h with h8
                    subst h8
                    rfl

/-- Every Result the runner loop collects is terminal. -/
theorem run_suite_go_terminal (env : Env) (durs : Nat → Rat) :
    ∀ (tests : List TestDecl) (k : Nat) (rs : List TestResult),
      run_suite_go env durs tests k = .ok rs → ∀ r ∈ rs, isTerminal r.status = true := by
  intro tests
  induction tests with
  | nil =>
      intro k rs h r hr
      simp only [run_suite_go] at h
      injection h with h2
      subst h2
      cases hr
  | cons c rest ih =>
      intro k rs h r hr
      simp only [run_suite_go] at h
      cases hcall : run_test env (durs k) c with
      | error e => rw [hcall] at h; exact Except.noConfusion h
      | ok r0 =>
          rw [hcall] at h
          cases hrec : run_suite_go env durs rest (k + 1) with
          | error e => rw [hrec] at h; exact Except.noConfusion h
          | ok rs2 =>
              rw [hrec] at h
              injection h with h2
              subst h2
              rcases List.mem_cons.mp hr with hhead | htail
              · subst hhead
                exact run_test_terminal env (durs k) c r0 hcall
              · exact ih (k + 1) rs2 hrec r htail

/-- Over terminal results, the length is the sum of the four status
tallies. -/
theorem length_eq_status_counts (rs : List TestResult)
    (h : ∀ r ∈ rs, isTerminal r.status = true) :
    rs.length
      = rs.countP (fun r => r.status == .passed) + rs.countP (fun r => r.status == .failed)
        + rs.countP (fun r => r.status == .error) + rs.countP (fun r => r.status == .skipped) := by
  induction rs with
  | nil => rfl
  | cons a l ih =>
      have ha := h a (List.mem_cons_self a l)
      have hl := ih (fun r hr => h r (List.mem_cons_of_mem a hr))
      simp only [List.countP_cons, List.length_cons, hl]
      cases hs : a.status <;> simp [isTerminal, hs] at ha ⊢ <;> omega

/-- C3: for any Results sequence the Runner holds (produced by
`run_suite`), the summary satisfies `total = passed + failed + errors
+ skipped` (the counts are naturals, hence non-negative),
`success_rate = 0` when `total = 0`, and `success_rate =
passed/total*100` (exactly, over the rationals) otherwise. -/
theorem summary_invariant (env : Env) (durs : Nat → Rat) (suite : TestSuite)
    (rs : List TestResult) (startT endT : Rat)
    (h : run_suite env durs suite = .ok rs) :
    (get_summary rs startT endT).total
      = (get_summary rs startT endT).passed + (get_summary rs startT endT).failed
        + (get_summary rs startT endT).errors + (get_summary rs startT endT).skipped
    ∧ ((get_summary rs startT endT).total = 0 → (get_summary rs startT endT).success_rate = 0)
    ∧ ((get_summary rs startT endT).total ≠ 0 →
        (get_summary rs startT endT).success_rate
          = ((get_summary rs startT endT).passed : Rat)
            / ((get_summary rs startT endT).total : Rat) * 100) := by
  have hterm := run_suite_go_terminal env durs suite.tests 0 rs h
  refine ⟨?_, ?_, ?_⟩
  · simpa [get_summary] using length_eq_status_counts rs hterm
  · intro h0
    simp only [get_summary] at h0 ⊢
    have he : rs.isEmpty = true := by
      cases rs with
      | nil => rfl
      | cons a l => simp at h0
    simp [he]
  · intro h0
    simp only [get_summary] at h0 ⊢
    have he : rs.isEmpty = false := by
      cases rs with
      | nil => simp at h0
      | cons a l => rfl
    simp [he]

/-- Witness for `summary_invariant` on the concrete run of
`[declExistsOk]` under `env0`. -/
theorem summary_invariant_witness :
    (get_summary resW 0 1).total
      = (get_summary resW 0 1).passed + (get_summary resW 0 1).failed
        + (get_summary resW 0 1).errors + (get_summary resW 0 1).skipped
    ∧ ((get_summary resW 0 1).total = 0 → (get_summary resW 0 1).success_rate = 0)
    ∧ ((get_summary resW 0 1).total ≠ 0 →
        (get_summary resW 0 1).success_rate
          = ((get_summary resW 0 1).passed : Rat) / ((get_summary resW 0 1).total : Rat) * 100) :=
  summary_invariant env0 (fun _ => 0) { name := "w1", tests := [declExistsOk] } resW 0 1 rfl
